import Mathlib

/-!
Verification development for a retrieval-augmented portfolio chat backend.

The development shallowly embeds the program's core components:
* the Document Loader (`load_json_data` in `initialize_pinecone.py`),
* the Index Builder (`initialize_pinecone`),
* the query pipeline (`RAGPipeline.get_response_stream` / `get_response`
  in `rag_pipeline.py`),
* the API surface (`reindex`, `chat`, `websocket_endpoint` in `main.py`).

External services (the vector store, the embedding service, the LLM) are
modelled as oracles supplied through environment records; Python exceptions
raised while processing one JSON record are modelled with `Except`.
-/

/-- Model of a parsed JSON value (the result of Python's `json.load`).
JSON numbers in the profile data are integers, so `num` carries an `Int`. -/
inductive Json : Type where
  | null : Json
  | bool : Bool → Json
  | num : Int → Json
  | str : String → Json
  | arr : List Json → Json
  | obj : List (String × Json) → Json

/-- Double-quote character, used when emitting JSON text. -/
def dquote : String := String.singleton (Char.ofNat 34)

/-- Backslash character, start of JSON escape sequences. -/
def bslash : Char := Char.ofNat 92

/-- Escape one character the way Python's `json.dumps` does for the common
ASCII escapes. -/
def escapeJsonChar (c : Char) : String :=
  if c = Char.ofNat 34 then String.singleton bslash ++ dquote
  else if c = bslash then String.singleton bslash ++ String.singleton bslash
  else if c = Char.ofNat 10 then String.singleton bslash ++ "n"
  else if c = Char.ofNat 9 then String.singleton bslash ++ "t"
  else if c = Char.ofNat 13 then String.singleton bslash ++ "r"
  else String.singleton c

/-- Escape a whole string for JSON output. -/
def escapeJson (s : String) : String :=
  String.join (s.toList.map escapeJsonChar)

/-- A JSON string literal: `"..."` with escapes. -/
def jsonQuote (s : String) : String :=
  dquote ++ escapeJson s ++ dquote

/-- Indentation of `n` spaces, as produced by `json.dumps(..., indent=2)`
at nesting level `n / 2`. -/
def spacesN (n : Nat) : String :=
  String.mk (List.replicate n ' ')

mutual

/-- Serialization of one JSON value at nesting level `lvl`, following
Python's `json.dumps(value, indent=2)` layout. -/
def dumpVal (lvl : Nat) : Json → String
  | .null => "null"
  | .bool true => "true"
  | .bool false => "false"
  | .num n => toString n
  | .str s => jsonQuote s
  | .arr [] => "[]"
  | .arr (x :: xs) =>
      "[\n" ++ spacesN (2 * (lvl + 1)) ++ dumpVal (lvl + 1) x
        ++ dumpArrRest (lvl + 1) xs ++ "\n" ++ spacesN (2 * lvl) ++ "]"
  | .obj [] => "\x7b\x7d"
  | .obj ((k, v) :: fs) =>
      "\x7b\n" ++ spacesN (2 * (lvl + 1)) ++ jsonQuote k ++ ": "
        ++ dumpVal (lvl + 1) v ++ dumpObjRest (lvl + 1) fs
        ++ "\n" ++ spacesN (2 * lvl) ++ "\x7d"

/-- Remaining array elements, each on its own indented line. -/
def dumpArrRest (lvl : Nat) : List Json → String
  | [] => ""
  | x :: xs => ",\n" ++ spacesN (2 * lvl) ++ dumpVal lvl x ++ dumpArrRest lvl xs

/-- Remaining object fields, each on its own indented line. -/
def dumpObjRest (lvl : Nat) : List (String × Json) → String
  | [] => ""
  | (k, v) :: fs =>
      ",\n" ++ spacesN (2 * lvl) ++ jsonQuote k ++ ": " ++ dumpVal lvl v
        ++ dumpObjRest lvl fs

end

/-- Model of Python's `json.dumps(data, indent=2)` (the fallback serializer
used by the Loader at `initialize_pinecone.py` line 84). -/
def jsonDumps (j : Json) : String := dumpVal 0 j

mutual

/-- Model of Python's `repr` on values obtained from `json.load`; used by
`pyStr` for container values interpolated into f-strings. -/
def pyRepr : Json → String
  | .null => "None"
  | .bool true => "True"
  | .bool false => "False"
  | .num n => toString n
  | .str s => "'" ++ s ++ "'"
  | .arr xs => "[" ++ pyReprList xs ++ "]"
  | .obj fs => "\x7b" ++ pyReprFields fs ++ "\x7d"

/-- Comma-separated `repr`s of list elements. -/
def pyReprList : List Json → String
  | [] => ""
  | [x] => pyRepr x
  | x :: y :: xs => pyRepr x ++ ", " ++ pyReprList (y :: xs)

/-- Comma-separated `repr`s of dict items. -/
def pyReprFields : List (String × Json) → String
  | [] => ""
  | [(k, v)] => "'" ++ k ++ "': " ++ pyRepr v
  | (k, v) :: f :: fs => "'" ++ k ++ "': " ++ pyRepr v ++ ", " ++ pyReprFields (f :: fs)

end

/-- Model of Python's `str()` on values obtained from `json.load`, as used
when a value is interpolated into an f-string by the Loader. -/
def pyStr : Json → String
  | .null => "None"
  | .bool true => "True"
  | .bool false => "False"
  | .num n => toString n
  | .str s => s
  | .arr xs => pyRepr (.arr xs)
  | .obj fs => pyRepr (.obj fs)

/-- Model of Python truthiness for values obtained from `json.load`
(used by `if role and company:` and `if name:` in the Loader). -/
def pyTruthy : Json → Bool
  | .null => false
  | .bool b => b
  | .num n => n ≠ 0
  | .str s => s ≠ ""
  | .arr xs => ¬ xs.isEmpty
  | .obj fs => ¬ fs.isEmpty

/-- First binding of `key` in a parsed JSON object's field list
(Python dict lookup; `json.load` produces unique keys). -/
def lookupKey (fields : List (String × Json)) (key : String) : Option Json :=
  (fields.find? (fun f => f.1 == key)).map (fun f => f.2)

/-- Whether a parsed JSON object has the given key (Python's `key in data`). -/
def hasKey (fields : List (String × Json)) (key : String) : Bool :=
  fields.any (fun f => f.1 == key)

/-- Model of Python's `value.get(key, default)`: succeeds on a dict and
raises `AttributeError` (here `Except.error`) on any other value. -/
def pyGet (j : Json) (key : String) (default : Json) : Except Unit Json :=
  match j with
  | .obj fields => .ok ((lookupKey fields key).getD default)
  | _ => .error ()

/-- Model of Python's `for x in value:` on a value obtained from
`json.load`: lists iterate elements, strings iterate one-character strings,
dicts iterate keys, everything else raises `TypeError`. -/
def pyIter : Json → Except Unit (List Json)
  | .arr xs => .ok xs
  | .str s => .ok (s.toList.map (fun c => .str (String.singleton c)))
  | .obj fs => .ok (fs.map (fun f => .str f.1))
  | _ => .error ()

/-- Metadata attached by the Loader to each Document
(`initialize_pinecone.py` lines 88–92). -/
structure DocumentMetadata where
  source : String
  type : String
  name : Json

/-- Model of a langchain `Document` as produced by the Loader. -/
structure Document where
  page_content : String
  metadata : DocumentMetadata

/-- Lines produced for the `personal_profile` section
(`initialize_pinecone.py` lines 44–50). A non-dict section value makes
`info.get` raise, which skips the whole file. -/
def personalProfileParts (fields : List (String × Json)) : Except Unit (List String) :=
  if hasKey fields "personal_profile" then do
    let info := (lookupKey fields "personal_profile").getD .null
    let n ← pyGet info "name" (.str "")
    let t ← pyGet info "title" (.str "")
    let contact ← pyGet info "contact" (.obj [])
    let em ← pyGet contact "email" (.str "")
    let loc ← pyGet info "location" (.str "")
    let summ ← pyGet info "summary" (.str "")
    .ok ["Name: " ++ pyStr n, "Title: " ++ pyStr t, "Contact: " ++ pyStr em,
         "Location: " ++ pyStr loc, "About: " ++ pyStr summ]
  else .ok []

/-- Lines produced for the entries of `professional_experience`
(`initialize_pinecone.py` lines 55–62): one header bullet per entry that is
a dict with truthy role and company, plus one bullet per achievement. -/
def expLines : List Json → Except Unit (List String)
  | [] => .ok []
  | exp :: rest => do
      let here ← match exp with
        | .obj ef =>
            let role := (lookupKey ef "role").getD (.str "")
            let company := (lookupKey ef "company").getD (.str "")
            if pyTruthy role && pyTruthy company then do
              let achs ← pyIter ((lookupKey ef "achievements").getD (.arr []))
              Except.ok (("- " ++ pyStr role ++ " at " ++ pyStr company)
                :: achs.map (fun a => "  * " ++ pyStr a))
            else Except.ok []
        | _ => Except.ok []
      let tail ← expLines rest
      .ok (here ++ tail)

/-- Lines produced for the `professional_experience` section
(`initialize_pinecone.py` lines 53–62). -/
def professionalExperienceParts (fields : List (String × Json)) : Except Unit (List String) :=
  if hasKey fields "professional_experience" then do
    let items ← pyIter ((lookupKey fields "professional_experience").getD .null)
    let sub ← expLines items
    .ok ("\nProfessional Experience:" :: sub)
  else .ok []

/-- Lines produced for the entries of `projects`
(`initialize_pinecone.py` lines 67–72). -/
def projLines : List Json → Except Unit (List String)
  | [] => .ok []
  | proj :: rest => do
      let here ← match proj with
        | .obj pf =>
            let name := (lookupKey pf "name").getD (.str "")
            let desc := (lookupKey pf "description").getD (.str "")
            if pyTruthy name then
              Except.ok ["- " ++ pyStr name ++ ": " ++ pyStr desc]
            else Except.ok []
        | _ => Except.ok []
      let tail ← projLines rest
      .ok (here ++ tail)

/-- Lines produced for the `projects` section
(`initialize_pinecone.py` lines 65–72). -/
def projectsParts (fields : List (String × Json)) : Except Unit (List String) :=
  if hasKey fields "projects" then do
    let items ← pyIter ((lookupKey fields "projects").getD .null)
    let sub ← projLines items
    .ok ("\nProjects:" :: sub)
  else .ok []

/-- Model of Python's `", ".join(skills)`: every element must be a string,
otherwise `join` raises `TypeError`. -/
def strValues : List Json → Except Unit (List String)
  | [] => .ok []
  | .str s :: rest => do
      let r ← strValues rest
      .ok (s :: r)
  | _ => .error ()

/-- Lines produced for the categories of `skills`
(`initialize_pinecone.py` lines 78–80): one line per category whose value
is a list. -/
def skillLines : List (String × Json) → Except Unit (List String)
  | [] => .ok []
  | (category, skills) :: rest => do
      let here ← match skills with
        | .arr xs => do
            let strs ← strValues xs
            Except.ok ["- " ++ category ++ ": " ++ String.intercalate ", " strs]
        | _ => Except.ok []
      let tail ← skillLines rest
      .ok (here ++ tail)

/-- Lines produced for the `skills` section
(`initialize_pinecone.py` lines 75–80): the header is appended before the
dict check, so it appears whenever the key is present. -/
def skillsParts (fields : List (String × Json)) : Except Unit (List String) :=
  if hasKey fields "skills" then
    match (lookupKey fields "skills").getD .null with
    | .obj cats => do
        let sub ← skillLines cats
        .ok ("\nSkills:" :: sub)
    | _ => .ok ["\nSkills:"]
  else .ok []

/-- The `content_parts` accumulated for one parsed record
(`initialize_pinecone.py` lines 37–80). All section extraction is guarded
by `isinstance(data, dict)`, so a non-dict record yields no parts. -/
def buildParts (data : Json) : Except Unit (List String) :=
  match data with
  | .obj fields => do
      let p1 ← personalProfileParts fields
      let p2 ← professionalExperienceParts fields
      let p3 ← projectsParts fields
      let p4 ← skillsParts fields
      .ok (p1 ++ p2 ++ p3 ++ p4)
  | _ => .ok []

/-- Removal of every occurrence of `".json"` from a character list,
scanning left to right: the model of Python's
`filename.replace(".json", "")` at its concrete arguments. -/
def replaceDotJson : List Char → List Char
  | '.' :: 'j' :: 's' :: 'o' :: 'n' :: rest => replaceDotJson rest
  | c :: rest => c :: replaceDotJson rest
  | [] => []

/-- String wrapper for `replaceDotJson`. -/
def pyReplaceDotJson (s : String) : String :=
  String.mk (replaceDotJson s.toList)

/-- Whether a filename ends with `".json"`: the model of Python's
`filename.endswith(".json")`. -/
def endsWithDotJson (s : String) : Bool :=
  match s.toList.reverse with
  | 'n' :: 'o' :: 's' :: 'j' :: '.' :: _ => true
  | _ => false

/-- Processing of one successfully parsed JSON file
(`initialize_pinecone.py` lines 36–94): build the content, falling back to
`json.dumps(data, indent=2)` when no parts were produced, then build
metadata. The metadata step calls `data.get`, which raises on non-dict
records. -/
def processFileE (filename : String) (data : Json) : Except Unit Document := do
  let content_parts ← buildParts data
  let content :=
    if content_parts.isEmpty then jsonDumps data
    else String.intercalate "\n" content_parts
  let nameVal ← pyGet data "name" (.str (pyReplaceDotJson filename))
  .ok { page_content := content,
        metadata := { source := filename, type := "portfolio_data", name := nameVal } }

/-- One file's contribution to the Loader's output: the surrounding
`try`/`except` (`initialize_pinecone.py` lines 32, 97) turns any raised
exception into skipping the file. -/
def processFile (filename : String) (data : Json) : Option Document :=
  match processFileE filename data with
  | .ok d => some d
  | .error _ => none

/-- The Loader's loop over directory entries
(`initialize_pinecone.py` lines 27–101). Each entry pairs a filename with
the result of `json.load` (`none` models a parse failure). -/
def loadFiles : List (String × Option Json) → List Document
  | [] => []
  | (filename, parsed) :: rest =>
      if endsWithDotJson filename then
        match parsed with
        | none => loadFiles rest
        | some data =>
            match processFile filename data with
            | some doc => doc :: loadFiles rest
            | none => loadFiles rest
      else loadFiles rest

/-- Model of `load_json_data` (`initialize_pinecone.py` lines 18–102):
`none` for the directory models a missing data directory, which yields an
empty result. -/
def load_json_data (dirEntries : Option (List (String × Option Json))) : List Document :=
  match dirEntries with
  | none => []
  | some entries => loadFiles entries

/-- Fixed batch size for uploads (`initialize_pinecone.py` line 186). -/
def batch_size : Nat := 5

/-- The batches produced by the upload loop
(`for i in range(0, total_docs, batch_size): batch_docs = documents[i:i + batch_size]`,
`initialize_pinecone.py` lines 189–190), indexed by batch number. -/
def uploadBatches {α : Type} (docs : List α) : List (List α) :=
  (List.range ((docs.length + batch_size - 1) / batch_size)).map
    (fun j => (docs.drop (j * batch_size)).take batch_size)

/-- Observable steps taken by `initialize_pinecone` after the configuration
checks: loading documents, attempting one batch upload (with its outcome),
sleeping between batches, and the final smoke-test block. -/
inductive IndexEffect : Type where
  | loadDocuments : IndexEffect
  | uploadAttempt : Nat → List Document → Bool → IndexEffect
  | sleepBetween : IndexEffect
  | smokeTests : IndexEffect

/-- Environment of `initialize_pinecone`: configuration and the behaviour
of the external vector-store service. `listIndexes` and `describeStats`
are `Except` because the corresponding client calls can raise
(`initialize_pinecone.py` lines 124–154); `uploadOk j` tells whether the
upload call for batch `j` succeeds or raises. -/
structure IndexEnv where
  apiKey : Option String
  indexName : String
  clientOk : Bool
  listIndexes : Except Unit (List String)
  describeStats : Except Unit (Option Nat)
  dirEntries : Option (List (String × Option Json))
  embedOk : Bool
  uploadOk : Nat → Bool

/-- The effects of the upload loop (`initialize_pinecone.py` lines
189–210): every batch is attempted inside its own `try`; a failing batch
is skipped with `continue`; after a successful non-final batch the loop
sleeps (`if i + batch_size < total_docs: time.sleep(2)`). -/
def uploadLoop (env : IndexEnv) (total : Nat) : List (Nat × List Document) → List IndexEffect
  | [] => []
  | (j, b) :: rest =>
      IndexEffect.uploadAttempt j b (env.uploadOk j)
        :: (if env.uploadOk j then
              (if j * batch_size + batch_size < total then [IndexEffect.sleepBetween] else [])
            else [])
        ++ uploadLoop env total rest

/-- All effects of the upload phase for the loaded documents. -/
def uploadEffects (env : IndexEnv) (documents : List Document) : List IndexEffect :=
  uploadLoop env documents.length (uploadBatches documents).enum

/-- Model of `initialize_pinecone` (`initialize_pinecone.py` lines
104–254), returning its boolean result paired with the trace of effects.
The control flow mirrors the source: missing API key, client failure,
listing failure, missing index, stats failure, and a dimension other than
1024 all return `False` before any document is loaded; empty documents and
a failing embeddings constructor return `False` after loading; otherwise
every batch is attempted, the smoke tests run in their own `try`, and the
run returns `True` regardless of per-batch outcomes. -/
def initialize_pinecone (env : IndexEnv) : Bool × List IndexEffect :=
  match env.apiKey with
  | none => (false, [])
  | some _ =>
      if env.clientOk then
        match env.listIndexes with
        | .error _ => (false, [])
        | .ok existing_indexes =>
            if env.indexName ∈ existing_indexes then
              match env.describeStats with
              | .error _ => (false, [])
              | .ok dimension =>
                  if dimension = some 1024 then
                    let documents := load_json_data env.dirEntries
                    if documents.isEmpty then (false, [IndexEffect.loadDocuments])
                    else if env.embedOk then
                      (true, IndexEffect.loadDocuments
                        :: uploadEffects env documents ++ [IndexEffect.smokeTests])
                    else (false, [IndexEffect.loadDocuments])
                  else (false, [])
            else (false, [])
      else (false, [])

/-- The upload attempts recorded in a trace, in order. -/
def uploadAttemptsOf : List IndexEffect → List (Nat × List Document × Bool)
  | [] => []
  | IndexEffect.uploadAttempt j b ok :: rest => (j, b, ok) :: uploadAttemptsOf rest
  | _ :: rest => uploadAttemptsOf rest

/-- The batches whose upload was attempted, in order. -/
def attemptedBatches (tr : List IndexEffect) : List (List Document) :=
  (uploadAttemptsOf tr).map (fun x => x.2.1)

/-- The batches whose upload call succeeded, in order. -/
def succeededBatches (tr : List IndexEffect) : List (List Document) :=
  ((uploadAttemptsOf tr).filter (fun x => x.2.2)).map (fun x => x.2.1)

/-- Recursive view of chunking a list into runs of `batch_size`; proved
equal to `uploadBatches` below. -/
def chunk5 {α : Type} : List α → List (List α)
  | [] => []
  | a :: rest => ((a :: rest).take batch_size) :: chunk5 ((a :: rest).drop batch_size)
termination_by l => l.length
decreasing_by
  simp [List.length_drop, batch_size]
  omega

/-- Environment of the query pipeline (`rag_pipeline.py`): the vector
store's `similarity_search`, the chunks produced by `chain.stream`, and
the string produced by `chain.invoke`, all as functions of their inputs
(the external services are assumed deterministic). -/
structure PipelineEnv where
  similarity_search : String → Nat → List Document
  llmStream : String → List String
  llmInvoke : String → String

/-- Model of `RAGPipeline._query_understanding` (`rag_pipeline.py` lines
63–64): the identity on the query. -/
def RAGPipeline.query_understanding (query : String) : String := query

/-- Model of `RAGPipeline.retrieve` (`rag_pipeline.py` lines 66–68) with
its default `k = 4`. -/
def RAGPipeline.retrieve (env : PipelineEnv) (query : String) (k : Nat := 4) :
    List Document :=
  env.similarity_search query k

/-- Model of `RAGPipeline.format_docs` (`rag_pipeline.py` lines 70–71). -/
def RAGPipeline.format_docs (docs : List Document) : String :=
  String.intercalate "\n\n" (docs.map (fun d => d.page_content))

/-- Persona template text before the retrieved-context placeholder
(`rag_pipeline.py` lines 31–37). -/
def promptPart1 : String :=
  "\n        You ARE Hammad Ali Tahir, speaking directly to visitors on your portfolio website and make sure to try\n        to communicate and do not give answers in a way that you are a machine.\n        Speak in FIRST PERSON (I, me, my) - you are not an assistant talking ABOUT Hammad, you ARE Hammad.\n        \n        Your data and context:\n        "

/-- Persona template text between the context and question placeholders
(`rag_pipeline.py` lines 37–40). -/
def promptPart2 : String :=
  "\n        \n        Visitor's question (Which should get most priority to generate response):\n        "

/-- Persona template text after the question placeholder
(`rag_pipeline.py` lines 40–53). -/
def promptPart3 : String :=
  "\n        \n        Response guidelines:\n        1. Always speak as \x22I\x22 - never say \x22Hammad\x22 or \x22he\x22 when referring to yourself\n        2. Be conversational, friendly, and confident - like you're chatting with a potential collaborator\n        3. Keep responses concise and focused - avoid long markdown tables or overly formal structures\n        4. Highlight your key achievements naturally in conversation\n        5. Your motto: \x22AI = Logic + Data + Imagination\x22 - embody this philosophy\n        6. If asked something not in context, say \x22I haven't shared that publicly yet\x22 or similar\n        7. Show genuine enthusiasm for AI, ML, and building intelligent systems\n        8. Never give the 'My site: <hammadalit-iahir-hywb9z.gamma.site/>' to anybody\n        \n        Your response (speak as Hammad and give concise answer untill and unless the details are been asked):\n        "

/-- The fully composed prompt: the fixed template with the two
placeholders filled (`ChatPromptTemplate.from_template`, `rag_pipeline.py`
lines 31–53, applied by the chain at lines 78–83). -/
def promptFormat (context question : String) : String :=
  promptPart1 ++ context ++ promptPart2 ++ question ++ promptPart3

/-- Model of `RAGPipeline.get_response_stream` (`rag_pipeline.py` lines
73–86): retrieve with the default `k`, format the context, compose the
prompt, and yield the model's stream chunks. -/
def RAGPipeline.get_response_stream (env : PipelineEnv) (query : String) : List String :=
  let processed_query := RAGPipeline.query_understanding query
  let docs := RAGPipeline.retrieve env processed_query
  let context := RAGPipeline.format_docs docs
  env.llmStream (promptFormat context query)

/-- Model of `RAGPipeline.get_response` (`rag_pipeline.py` lines 88–100):
identical chain construction, but the chain is invoked once for a single
string. -/
def RAGPipeline.get_response (env : PipelineEnv) (query : String) : String :=
  let processed_query := RAGPipeline.query_understanding query
  let docs := RAGPipeline.retrieve env processed_query
  let context := RAGPipeline.format_docs docs
  env.llmInvoke (promptFormat context query)

/-- One `RAGPipeline` instance. Python object identity is modelled by a
numeric id drawn from a per-process counter. -/
structure RAGPipeline where
  id : Nat
deriving DecidableEq

/-- Process-wide mutable state of `main.py`: the `stats` dict (lines
28–33), the `rag_pipeline` module global of `rag_pipeline.py` (line 103),
and the counter that hands out fresh instance identities. -/
structure AppState where
  total_queries : Nat
  avg_response_time : Rat
  last_reindex_time : Option String
  index_status : String
  rag_pipeline : Option RAGPipeline
  nextId : Nat

/-- Model of `get_rag_pipeline` (`rag_pipeline.py` lines 105–109): return
the singleton, constructing it first if the slot is empty. -/
def get_rag_pipeline (s : AppState) : RAGPipeline × AppState :=
  match s.rag_pipeline with
  | some p => (p, s)
  | none =>
      let p : RAGPipeline := ⟨s.nextId⟩
      (p, { s with rag_pipeline := some p, nextId := s.nextId + 1 })

/-- An HTTP error raised by a handler (FastAPI's `HTTPException`). -/
structure HTTPError where
  status_code : Nat
  detail : String
deriving DecidableEq

/-- Model of the `POST /api/reindex` handler (`main.py` lines 65–76): run
the Index Builder synchronously; on success assign a freshly constructed
`RAGPipeline` to the module global and update the stats fields; on failure
raise HTTP 500 and touch nothing. -/
def reindex (ienv : IndexEnv) (now : String) (s : AppState) :
    Except HTTPError String × AppState :=
  if (initialize_pinecone ienv).1 then
    let p : RAGPipeline := ⟨s.nextId⟩
    (.ok "Pinecone index rebuilt successfully",
     { s with rag_pipeline := some p, nextId := s.nextId + 1,
              index_status := "Ready (Pinecone)", last_reindex_time := some now })
  else
    (.error ⟨500, "Failed to rebuild Pinecone index"⟩, s)

/-- Request body of `POST /api/chat` (`main.py` lines 35–37). -/
structure ChatRequest where
  message : String
  stream : Bool := true

/-- Body of a chat response: either the chunks of a streaming response or
the single JSON `response` string. -/
inductive ChatBody : Type where
  | streamed : List String → ChatBody
  | jsonResp : String → ChatBody
deriving DecidableEq

/-- Result of one chat request: which pipeline instance served it and the
response body. -/
structure ChatResult where
  pipelineUsed : RAGPipeline
  body : ChatBody

/-- Model of the `POST /api/chat` handler (`main.py` lines 82–103) for one
completed request taking `duration` seconds: fetch (possibly creating) the
pipeline, bump `total_queries`, then either stream the chunks (the average
is updated after the generator is drained) or return the single response. -/
def chat (penv : PipelineEnv) (duration : Rat) (req : ChatRequest) (s : AppState) :
    ChatResult × AppState :=
  match get_rag_pipeline s with
  | (pipeline, s1) =>
      let s2 := { s1 with total_queries := s1.total_queries + 1 }
      if req.stream then
        (⟨pipeline, .streamed (RAGPipeline.get_response_stream penv req.message)⟩,
         { s2 with avg_response_time := (s2.avg_response_time + duration) / 2 })
      else
        (⟨pipeline, .jsonResp (RAGPipeline.get_response penv req.message)⟩,
         { s2 with avg_response_time := (s2.avg_response_time + duration) / 2 })

/-- Model of one turn of the socket loop (`main.py` lines 110–121): bump
`total_queries`, send every stream chunk, send the `[DONE]` sentinel, then
update the running average with this turn's duration. -/
def websocket_turn (penv : PipelineEnv) (duration : Rat) (msg : String) (s : AppState) :
    List String × AppState :=
  let s1 := { s with total_queries := s.total_queries + 1 }
  let frames := RAGPipeline.get_response_stream penv msg ++ ["[DONE]"]
  (frames, { s1 with avg_response_time := (s1.avg_response_time + duration) / 2 })

/-- The socket receive loop over a finite sequence of incoming messages,
each paired with the turn's duration. -/
def websocket_loop (penv : PipelineEnv) :
    List (String × Rat) → AppState → List String × AppState
  | [], s => ([], s)
  | (m, d) :: rest, s =>
      let (frames, s1) := websocket_turn penv d m s
      let (more, s2) := websocket_loop penv rest s1
      (frames ++ more, s2)

/-- Model of the `/ws/chat` endpoint (`main.py` lines 105–121) for a
connection that receives the given messages and then disconnects: the
pipeline is fetched once, then the loop runs one turn per message. -/
def websocket_endpoint (penv : PipelineEnv) (msgs : List (String × Rat)) (s : AppState) :
    List String × AppState :=
  match get_rag_pipeline s with
  | (_pipeline, s1) => websocket_loop penv msgs s1

/-- A concrete pipeline environment for closed instantiations: the model
streams the fragments `["Hel", "lo"]` and returns `"Hello"` when invoked. -/
def penvW : PipelineEnv :=
  { similarity_search := fun _ _ => []
    llmStream := fun _ => ["Hel", "lo"]
    llmInvoke := fun _ => "Hello" }

/-- A fresh server state: no pipeline constructed yet, zeroed stats. -/
def st0 : AppState :=
  { total_queries := 0, avg_response_time := 0, last_reindex_time := none,
    index_status := "Ready (Pinecone)", rag_pipeline := none, nextId := 0 }

/-- A server state whose pipeline singleton is the instance with id 0. -/
def st1 : AppState :=
  { st0 with rag_pipeline := some ⟨0⟩, nextId := 1 }

/-- An environment with no API key configured: `initialize_pinecone` fails
before touching anything. -/
def envMissingKey : IndexEnv :=
  { apiKey := none, indexName := "greyfang", clientOk := true,
    listIndexes := .ok [], describeStats := .ok none,
    dirEntries := none, embedOk := true, uploadOk := fun _ => true }

/-- An environment where the named index exists but reports dimension 768
instead of 1024. -/
def envBadDim : IndexEnv :=
  { apiKey := some "k", indexName := "greyfang", clientOk := true,
    listIndexes := .ok ["greyfang"], describeStats := .ok (some 768),
    dirEntries := some [("a.json", some (.obj [("x", .num 1)]))],
    embedOk := true, uploadOk := fun _ => true }

/-- One valid data-directory entry per index, with a record that has none
of the recognized sections. -/
def docEntry (i : Nat) : String × Option Json :=
  ("doc" ++ toString i ++ ".json", some (.obj [("idx", .num (Int.ofNat i))]))

/-- Twelve valid data-directory entries. -/
def entries12 : List (String × Option Json) :=
  (List.range 12).map docEntry

/-- A fully healthy environment holding twelve documents, every batch
upload succeeding. -/
def envTwelve : IndexEnv :=
  { apiKey := some "k", indexName := "greyfang", clientOk := true,
    listIndexes := .ok ["greyfang"], describeStats := .ok (some 1024),
    dirEntries := some entries12, embedOk := true, uploadOk := fun _ => true }

/-- A healthy environment holding twelve documents (three batches) where
the upload call for the second batch (index 1) raises. -/
def envBatchFail : IndexEnv :=
  { apiKey := some "k", indexName := "greyfang", clientOk := true,
    listIndexes := .ok ["greyfang"], describeStats := .ok (some 1024),
    dirEntries := some entries12, embedOk := true, uploadOk := fun j => j != 1 }

/-- A healthy environment holding a single document. -/
def envOneDoc : IndexEnv :=
  { apiKey := some "k", indexName := "greyfang", clientOk := true,
    listIndexes := .ok ["greyfang"], describeStats := .ok (some 1024),
    dirEntries := some [("p.json", some (.obj [("k", .str "v")]))],
    embedOk := true, uploadOk := fun _ => true }

theorem uploadAttemptsOf_append (l1 l2 : List IndexEffect) :
    uploadAttemptsOf (l1 ++ l2) = uploadAttemptsOf l1 ++ uploadAttemptsOf l2 := by
  induction l1 with
  | nil => rfl
  | cons e rest ih => cases e <;> simp [uploadAttemptsOf, ih]

theorem uploadAttemptsOf_uploadLoop (env : IndexEnv) (total : Nat)
    (l : List (Nat × List Document)) :
    uploadAttemptsOf (uploadLoop env total l) =
      l.map (fun jb => (jb.1, jb.2, env.uploadOk jb.1)) := by
  induction l with
  | nil => rfl
  | cons hd tl ih =>
      obtain ⟨j, b⟩ := hd
      have hsleep :
          uploadAttemptsOf
            (if env.uploadOk j then
               (if j * batch_size + batch_size < total then [IndexEffect.sleepBetween] else [])
             else []) = [] := by
        split
        · split
          · rfl
          · rfl
        · rfl
      simp [uploadLoop, uploadAttemptsOf, uploadAttemptsOf_append, hsleep, ih]

theorem uploadAttemptsOf_goodRun (env : IndexEnv) (key : String) (idxs : List String)
    (h1 : env.apiKey = some key) (h2 : env.clientOk = true)
    (h3 : env.listIndexes = .ok idxs) (h4 : env.indexName ∈ idxs)
    (h5 : env.describeStats = .ok (some 1024)) (h6 : env.embedOk = true)
    (h7 : (load_json_data env.dirEntries).isEmpty = false) :
    initialize_pinecone env =
      (true, IndexEffect.loadDocuments
        :: uploadEffects env (load_json_data env.dirEntries) ++ [IndexEffect.smokeTests])
    ∧ uploadAttemptsOf (initialize_pinecone env).2 =
        (uploadBatches (load_json_data env.dirEntries)).enum.map
          (fun jb => (jb.1, jb.2, env.uploadOk jb.1)) := by
  have hshape : initialize_pinecone env =
      (true, IndexEffect.loadDocuments
        :: uploadEffects env (load_json_data env.dirEntries) ++ [IndexEffect.smokeTests]) := by
    unfold initialize_pinecone
    rw [h1, h3, h5]
    simp [h2, h4, h6, h7]
  refine ⟨hshape, ?_⟩
  rw [hshape]
  simp [uploadAttemptsOf, uploadAttemptsOf_append, uploadEffects,
    uploadAttemptsOf_uploadLoop]

theorem chunk5_flatten {α : Type} (l : List α) : (chunk5 l).flatten = l := by
  induction l using chunk5.induct with
  | case1 => simp [chunk5]
  | case2 a rest ih =>
      rw [chunk5]
      simp only [List.flatten_cons, ih]
      exact List.take_append_drop batch_size (a :: rest)

theorem uploadBatches_cons {α : Type} (a : α) (rest : List α) :
    uploadBatches (a :: rest) =
      ((a :: rest).take batch_size) :: uploadBatches ((a :: rest).drop batch_size) := by
  have hlen : ((a :: rest).length + batch_size - 1) / batch_size =
      (((a :: rest).drop batch_size).length + batch_size - 1) / batch_size + 1 := by
    simp only [List.length_drop, List.length_cons, batch_size]
    omega
  unfold uploadBatches
  rw [hlen, List.range_succ_eq_map, List.map_cons, List.map_map]
  simp only [Nat.zero_mul, List.drop_zero]
  congr 1
  apply List.map_congr_left
  intro j _
  simp only [Function.comp_apply]
  rw [List.drop_drop]
  congr 2
  simp [Nat.succ_mul, Nat.add_comm]

theorem uploadBatches_eq_chunk5 {α : Type} (l : List α) :
    uploadBatches l = chunk5 l := by
  induction l using chunk5.induct with
  | case1 => simp [uploadBatches, chunk5, batch_size]
  | case2 a rest ih =>
      rw [chunk5, ← ih, uploadBatches_cons]

theorem uploadBatches_flatten {α : Type} (l : List α) : (uploadBatches l).flatten = l := by
  rw [uploadBatches_eq_chunk5]
  exact chunk5_flatten l

theorem uploadBatches_length {α : Type} (l : List α) :
    (uploadBatches l).length = (l.length + batch_size - 1) / batch_size := by
  simp [uploadBatches]

theorem uploadBatches_sizes {α : Type} (l : List α) (b : List α)
    (hb : b ∈ uploadBatches l) : b.length ≤ batch_size := by
  unfold uploadBatches at hb
  obtain ⟨j, _, rfl⟩ := List.mem_map.mp hb
  rw [List.length_take]
  exact min_le_left _ _

theorem attemptedBatches_goodRun (env : IndexEnv) (key : String) (idxs : List String)
    (h1 : env.apiKey = some key) (h2 : env.clientOk = true)
    (h3 : env.listIndexes = .ok idxs) (h4 : env.indexName ∈ idxs)
    (h5 : env.describeStats = .ok (some 1024)) (h6 : env.embedOk = true)
    (h7 : (load_json_data env.dirEntries).isEmpty = false) :
    attemptedBatches (initialize_pinecone env).2 =
      uploadBatches (load_json_data env.dirEntries) := by
  have h := (uploadAttemptsOf_goodRun env key idxs h1 h2 h3 h4 h5 h6 h7).2
  unfold attemptedBatches
  rw [h, List.map_map]
  have : ((fun x : Nat × List Document × Bool => x.2.1) ∘
      (fun jb : Nat × List Document => (jb.1, jb.2, env.uploadOk jb.1))) = Prod.snd := by
    funext jb
    rfl
  rw [this, List.enum_map_snd]

theorem websocket_loop_frames (penv : PipelineEnv) (msgs : List (String × Rat)) (s : AppState) :
    (websocket_loop penv msgs s).1 =
      (msgs.map (fun md => RAGPipeline.get_response_stream penv md.1 ++ ["[DONE]"])).flatten := by
  induction msgs generalizing s with
  | nil => rfl
  | cons md rest ih =>
      obtain ⟨m, d⟩ := md
      simp [websocket_loop, websocket_turn, ih]

theorem loadFiles_filterMap (entries : List (String × Option Json)) :
    loadFiles entries =
      entries.filterMap (fun e =>
        if endsWithDotJson e.1 then e.2.bind (processFile e.1) else none) := by
  induction entries with
  | nil => rfl
  | cons e rest ih =>
      obtain ⟨filename, parsed⟩ := e
      cases hjson : endsWithDotJson filename with
      | false => simp [loadFiles, List.filterMap_cons, hjson, ih]
      | true =>
          cases parsed with
          | none => simp [loadFiles, List.filterMap_cons, hjson, ih]
          | some data =>
              cases hp : processFile filename data <;>
                simp [loadFiles, List.filterMap_cons, hjson, hp, ih, Option.bind]

/-- C1 (confirmed). For every query, the concatenation of the fragments
yielded by the streaming chat path (`RAGPipeline.get_response_stream`, used
by `POST /api/chat` with stream=true) equals the single string returned by
the non-streaming path (`RAGPipeline.get_response`, used with
stream=false). Both paths build the identical prompt from the identical
retrieved context; the hypothesis states that the external model's
one-shot response is the concatenation of its streamed fragments (the
claim's determinism / identical-response assumption). -/
theorem chat_stream_concat_eq_nonstream (penv : PipelineEnv)
    (hdet : ∀ p, penv.llmInvoke p = String.join (penv.llmStream p))
    (q : String) (d d' : Rat) (s s' : AppState) :
    String.join (RAGPipeline.get_response_stream penv q) = RAGPipeline.get_response penv q
    ∧ (chat penv d ⟨q, true⟩ s).1.body =
        ChatBody.streamed (RAGPipeline.get_response_stream penv q)
    ∧ (chat penv d' ⟨q, false⟩ s').1.body =
        ChatBody.jsonResp (RAGPipeline.get_response penv q) := by
  refine ⟨?_, ?_, ?_⟩
  · simp [RAGPipeline.get_response_stream, RAGPipeline.get_response, hdet]
  · cases hp : s.rag_pipeline <;> simp [chat, get_rag_pipeline, hp]
  · cases hp : s'.rag_pipeline <;> simp [chat, get_rag_pipeline, hp]

/-- Witness for C1 at a concrete environment: the model streams
`["Hel", "lo"]` and returns `"Hello"` when invoked. -/
theorem chat_stream_concat_eq_nonstream_witness :
    (∀ p, penvW.llmInvoke p = String.join (penvW.llmStream p))
    ∧ String.join (RAGPipeline.get_response_stream penvW "Hi") =
        RAGPipeline.get_response penvW "Hi"
    ∧ (chat penvW 1 ⟨"Hi", true⟩ st0).1.body = ChatBody.streamed ["Hel", "lo"] := by
  have hdet : ∀ p, penvW.llmInvoke p = String.join (penvW.llmStream p) := fun _ => rfl
  have h := chat_stream_concat_eq_nonstream penvW hdet "Hi" 1 1 st0 st0
  refine ⟨hdet, h.1, ?_⟩
  rw [h.2.1]
  rfl


/-- C6 amended (corrected). For every JSON file that parses successfully
to a JSON object containing none of the four recognized sections, the
Loader produces a Document whose content is the formatted JSON
serialization of the original record, with metadata holding the source
filename, the fixed type tag, and a display name (the record's `name`
value, else the filename with `.json` removed). The amendment restricts
the claim to files parsing to JSON objects: for any other JSON value the
metadata step raises and the file is skipped (see the counterexample). -/
theorem loader_fallback_object (filename : String) (fields : List (String × Json))
    (h1 : hasKey fields "personal_profile" = false)
    (h2 : hasKey fields "professional_experience" = false)
    (h3 : hasKey fields "projects" = false)
    (h4 : hasKey fields "skills" = false) :
    processFile filename (Json.obj fields) =
      some { page_content := jsonDumps (Json.obj fields),
             metadata := { source := filename, type := "portfolio_data",
                           name := (lookupKey fields "name").getD
                             (Json.str (pyReplaceDotJson filename)) } } := by
  simp [processFile, processFileE, buildParts, personalProfileParts,
    professionalExperienceParts, projectsParts, skillsParts, pyGet,
    h1, h2, h3, h4, Except.bind, bind]

/-- Witness for C6's amended theorem at a concrete record with no
recognized sections. -/
theorem loader_fallback_object_witness :
    hasKey [("foo", Json.str "bar")] "personal_profile" = false
    ∧ hasKey [("foo", Json.str "bar")] "professional_experience" = false
    ∧ hasKey [("foo", Json.str "bar")] "projects" = false
    ∧ hasKey [("foo", Json.str "bar")] "skills" = false
    ∧ processFile "misc.json" (Json.obj [("foo", Json.str "bar")]) =
        some { page_content := jsonDumps (Json.obj [("foo", Json.str "bar")]),
               metadata := { source := "misc.json", type := "portfolio_data",
                             name := Json.str "misc" } } := by
  refine ⟨rfl, rfl, rfl, rfl, ?_⟩
  have h := loader_fallback_object "misc.json" [("foo", Json.str "bar")] rfl rfl rfl rfl
  rw [h]
  rfl

/-- Counterexample to C6 as stated: the file `data.json` holding the JSON
text `[]` parses successfully and contains none of the four recognized
sections, yet the Loader produces no Document at all — `data.get("name",
...)` raises `AttributeError` on a list, and the per-file handler skips
the file. The claim predicts a Document holding the serialized record. -/
theorem loader_fallback_counterexample :
    processFile "data.json" (Json.arr []) = none := rfl

/-- C7 amended (corrected). The Loader processes files independently: its
output is exactly one Document per `.json` entry whose parse succeeded and
whose per-file conversion succeeded, in directory order; a malformed file
(parse result `none`) contributes nothing and never aborts the batch. The
amendment weakens "one Document per valid file" to "one Document per valid
file whose record the per-file conversion accepts": a well-formed file
whose top level is not a JSON object is also skipped (see the
counterexample). -/
theorem loader_isolation (entries : List (String × Option Json)) :
    load_json_data (some entries) =
      entries.filterMap (fun e =>
        if endsWithDotJson e.1 then e.2.bind (processFile e.1) else none) := by
  simp only [load_json_data]
  exact loadFiles_filterMap entries

/-- Counterexample to C7 as stated: a directory holding one malformed file
and one valid file (whose JSON is the list `[]`) yields no Documents at
all, not one Document per valid file. -/
theorem loader_isolation_counterexample :
    load_json_data (some [("bad.json", none), ("list.json", some (Json.arr []))]) = [] := rfl

/-- C8 (confirmed). After every completed chat request — HTTP streaming,
HTTP non-streaming (the request shape is arbitrary here), or one WebSocket
turn — `total_queries` is exactly one greater than before, and
`avg_response_time` equals `(old_avg + new_duration) / 2` for that
request's elapsed time. -/
theorem chat_updates_stats (penv : PipelineEnv) (d : Rat) (req : ChatRequest)
    (m : String) (s : AppState) :
    (chat penv d req s).2.total_queries = s.total_queries + 1
    ∧ (chat penv d req s).2.avg_response_time = (s.avg_response_time + d) / 2
    ∧ (websocket_turn penv d m s).2.total_queries = s.total_queries + 1
    ∧ (websocket_turn penv d m s).2.avg_response_time = (s.avg_response_time + d) / 2 := by
  refine ⟨?_, ?_, rfl, rfl⟩ <;>
    cases hp : s.rag_pipeline <;> cases hs : req.stream <;>
      simp [chat, get_rag_pipeline, hp, hs]

/-- C9 (confirmed). For every sequence of text messages received on the
`/ws/chat` socket, the endpoint emits, for each message in order, that
query's streamed fragments followed by exactly one `[DONE]` sentinel
frame, before the next message's output. -/
theorem websocket_done_sentinel (penv : PipelineEnv) (msgs : List (String × Rat))
    (s : AppState) :
    (websocket_endpoint penv msgs s).1 =
      (msgs.map (fun md => RAGPipeline.get_response_stream penv md.1 ++ ["[DONE]"])).flatten := by
  cases hp : s.rag_pipeline <;>
    simp [websocket_endpoint, get_rag_pipeline, hp, websocket_loop_frames]

/-- C2 (confirmed). For every environment in which the named index exists
but its reported dimensionality is not 1024 (including a missing
dimension), `initialize_pinecone` returns `false` with an empty effect
trace: the document-loading step and the upload step are never invoked, so
no write to the vector index occurs. -/
theorem dimension_mismatch_refuses_write (env : IndexEnv) (key : String)
    (idxs : List String) (d : Option Nat)
    (h1 : env.apiKey = some key) (h2 : env.clientOk = true)
    (h3 : env.listIndexes = .ok idxs) (h4 : env.indexName ∈ idxs)
    (h5 : env.describeStats = .ok d) (h6 : d ≠ some 1024) :
    initialize_pinecone env = (false, []) := by
  unfold initialize_pinecone
  rw [h1, h3, h5]
  simp [h2, h4, h6]

/-- Witness for C2 at a concrete environment whose index reports
dimension 768. -/
theorem dimension_mismatch_refuses_write_witness :
    envBadDim.apiKey = some "k" ∧ envBadDim.clientOk = true
    ∧ envBadDim.listIndexes = .ok ["greyfang"] ∧ envBadDim.indexName ∈ ["greyfang"]
    ∧ envBadDim.describeStats = .ok (some 768) ∧ some 768 ≠ some (1024 : Nat)
    ∧ initialize_pinecone envBadDim = (false, []) := by
  refine ⟨rfl, rfl, rfl, by decide, rfl, by decide, ?_⟩
  exact dimension_mismatch_refuses_write envBadDim "k" ["greyfang"] (some 768)
    rfl rfl rfl (by decide) rfl (by decide)

/-- C4 (confirmed). In a healthy environment, whatever the per-batch
upload outcomes are, `initialize_pinecone` attempts every batch (the
attempted batches are exactly the batch partition of the loaded
documents, independent of `uploadOk`), the batches that actually upload
are exactly those whose call succeeds, and the run as a whole returns
success. -/
theorem batch_failure_tolerated (env : IndexEnv) (key : String) (idxs : List String)
    (h1 : env.apiKey = some key) (h2 : env.clientOk = true)
    (h3 : env.listIndexes = .ok idxs) (h4 : env.indexName ∈ idxs)
    (h5 : env.describeStats = .ok (some 1024)) (h6 : env.embedOk = true)
    (h7 : (load_json_data env.dirEntries).isEmpty = false) :
    (initialize_pinecone env).1 = true
    ∧ attemptedBatches (initialize_pinecone env).2 =
        uploadBatches (load_json_data env.dirEntries)
    ∧ succeededBatches (initialize_pinecone env).2 =
        (((uploadBatches (load_json_data env.dirEntries)).enum.filter
            (fun jb => env.uploadOk jb.1)).map (fun jb => jb.2)) := by
  obtain ⟨hshape, hatt⟩ := uploadAttemptsOf_goodRun env key idxs h1 h2 h3 h4 h5 h6 h7
  refine ⟨by rw [hshape], attemptedBatches_goodRun env key idxs h1 h2 h3 h4 h5 h6 h7, ?_⟩
  unfold succeededBatches
  rw [hatt, List.filter_map, List.map_map]
  congr 1

/-- Witness for C4: twelve documents form three batches; the upload call
for the middle batch (index 1) raises; all three batches are still
attempted, the first and third still upload, and the run reports
success. -/
theorem batch_failure_tolerated_witness :
    envBatchFail.apiKey = some "k" ∧ envBatchFail.clientOk = true
    ∧ envBatchFail.listIndexes = .ok ["greyfang"]
    ∧ envBatchFail.indexName ∈ ["greyfang"]
    ∧ envBatchFail.describeStats = .ok (some 1024) ∧ envBatchFail.embedOk = true
    ∧ (load_json_data envBatchFail.dirEntries).isEmpty = false
    ∧ (initialize_pinecone envBatchFail).1 = true
    ∧ ((uploadAttemptsOf (initialize_pinecone envBatchFail).2).map
        (fun x => (x.1, x.2.2))) = [(0, true), (1, false), (2, true)]
    ∧ ((attemptedBatches (initialize_pinecone envBatchFail).2).map List.length) = [5, 5, 2]
    ∧ ((succeededBatches (initialize_pinecone envBatchFail).2).map List.length) = [5, 2] := by
  refine ⟨rfl, rfl, rfl, by decide, rfl, rfl, rfl, ?_, by decide, by decide, by decide⟩
  exact (batch_failure_tolerated envBatchFail "k" ["greyfang"]
    rfl rfl rfl (by decide) rfl rfl rfl).1

/-- C5 (confirmed). In a healthy environment with a non-empty document
set, the batches whose upload `initialize_pinecone` attempts are exactly
the in-order partition of the loaded documents: there are ceil(n/5) of
them, each holds at most 5 documents, and their concatenation is the
original document list. -/
theorem upload_batching (env : IndexEnv) (key : String) (idxs : List String)
    (h1 : env.apiKey = some key) (h2 : env.clientOk = true)
    (h3 : env.listIndexes = .ok idxs) (h4 : env.indexName ∈ idxs)
    (h5 : env.describeStats = .ok (some 1024)) (h6 : env.embedOk = true)
    (h7 : (load_json_data env.dirEntries).isEmpty = false) :
    attemptedBatches (initialize_pinecone env).2 =
        uploadBatches (load_json_data env.dirEntries)
    ∧ (uploadBatches (load_json_data env.dirEntries)).length =
        ((load_json_data env.dirEntries).length + 4) / 5
    ∧ (∀ b ∈ uploadBatches (load_json_data env.dirEntries), b.length ≤ 5)
    ∧ (uploadBatches (load_json_data env.dirEntries)).flatten =
        load_json_data env.dirEntries := by
  refine ⟨attemptedBatches_goodRun env key idxs h1 h2 h3 h4 h5 h6 h7, ?_, ?_,
    uploadBatches_flatten _⟩
  · rw [uploadBatches_length]
    simp only [batch_size]
    omega
  · intro b hb
    exact uploadBatches_sizes _ b hb

/-- Witness for C5: twelve documents yield exactly three attempted batches
of sizes 5, 5, 2. -/
theorem upload_batching_witness :
    envTwelve.apiKey = some "k" ∧ envTwelve.clientOk = true
    ∧ envTwelve.listIndexes = .ok ["greyfang"] ∧ envTwelve.indexName ∈ ["greyfang"]
    ∧ envTwelve.describeStats = .ok (some 1024) ∧ envTwelve.embedOk = true
    ∧ (load_json_data envTwelve.dirEntries).isEmpty = false
    ∧ (load_json_data envTwelve.dirEntries).length = 12
    ∧ attemptedBatches (initialize_pinecone envTwelve).2 =
        uploadBatches (load_json_data envTwelve.dirEntries)
    ∧ ((attemptedBatches (initialize_pinecone envTwelve).2).map List.length) = [5, 5, 2] := by
  refine ⟨rfl, rfl, rfl, by decide, rfl, rfl, rfl, by decide, ?_, by decide⟩
  exact (upload_batching envTwelve "k" ["greyfang"] rfl rfl rfl (by decide) rfl rfl rfl).1

/-- C3 amended (corrected). `POST /api/reindex` runs the Index Builder
synchronously; when it reports success, the handler eagerly replaces the
RAGPipeline singleton with a newly constructed instance (it does not
clear the slot for lazy recreation), so that subsequent chat requests
observe the rebuilt index; when it reports failure, the handler responds
with an HTTP 500 server error status. -/
theorem reindex_eager_replacement (ienv : IndexEnv) (now : String) (s : AppState)
    (old : RAGPipeline) (penv : PipelineEnv) (d : Rat) (req : ChatRequest)
    (_hold : s.rag_pipeline = some old) (hfresh : old.id < s.nextId) :
    ((initialize_pinecone ienv).1 = true →
      (reindex ienv now s).2.rag_pipeline = some ⟨s.nextId⟩
      ∧ (⟨s.nextId⟩ : RAGPipeline) ≠ old
      ∧ (get_rag_pipeline (reindex ienv now s).2).1 = ⟨s.nextId⟩
      ∧ (chat penv d req (reindex ienv now s).2).1.pipelineUsed = ⟨s.nextId⟩
      ∧ (reindex ienv now s).1 = .ok "Pinecone index rebuilt successfully"
      ∧ (reindex ienv now s).2.index_status = "Ready (Pinecone)"
      ∧ (reindex ienv now s).2.last_reindex_time = some now)
    ∧ ((initialize_pinecone ienv).1 = false →
      reindex ienv now s = (.error ⟨500, "Failed to rebuild Pinecone index"⟩, s)) := by
  constructor
  · intro hsucc
    have hre : (reindex ienv now s).2 =
        { s with rag_pipeline := some ⟨s.nextId⟩, nextId := s.nextId + 1,
                 index_status := "Ready (Pinecone)", last_reindex_time := some now } := by
      simp [reindex, hsucc]
    have hre1 : (reindex ienv now s).1 = .ok "Pinecone index rebuilt successfully" := by
      simp [reindex, hsucc]
    refine ⟨by rw [hre], ?_, by rw [hre]; rfl, ?_, hre1, by rw [hre], by rw [hre]⟩
    · intro heq
      rw [← heq] at hfresh
      simp at hfresh
    · rw [hre]
      cases hs : req.stream <;> simp [chat, get_rag_pipeline, hs]
  · intro hfail
    simp [reindex, hfail]

/-- Witness for C3's amended theorem: a healthy one-document environment,
a state whose singleton is instance 0; after reindex the singleton is the
fresh instance 1 and a subsequent chat request uses it. -/
theorem reindex_eager_replacement_witness :
    st1.rag_pipeline = some ⟨0⟩ ∧ (0 : Nat) < st1.nextId
    ∧ (initialize_pinecone envOneDoc).1 = true
    ∧ (reindex envOneDoc "t" st1).2.rag_pipeline = some ⟨1⟩
    ∧ (⟨1⟩ : RAGPipeline) ≠ (⟨0⟩ : RAGPipeline)
    ∧ (chat penvW 1 ⟨"Hi", true⟩ (reindex envOneDoc "t" st1).2).1.pipelineUsed = ⟨1⟩
    ∧ (reindex envOneDoc "t" st1).1 = .ok "Pinecone index rebuilt successfully" := by
  have h := reindex_eager_replacement envOneDoc "t" st1 ⟨0⟩ penvW 1 ⟨"Hi", true⟩
    rfl (by decide)
  have hs := h.1 rfl
  exact ⟨rfl, by decide, rfl, hs.1, hs.2.1, hs.2.2.2.1, hs.2.2.2.2.1⟩

/-- Counterexample to C3 as stated: after a successful reindex the
singleton slot is not empty awaiting lazy recreation — the handler has
already constructed and installed the new instance (here instance 1)
before returning. -/
theorem reindex_lazy_recreation_counterexample :
    (initialize_pinecone envOneDoc).1 = true
    ∧ (reindex envOneDoc "2026-01-01 00:00:00" st1).2.rag_pipeline = some ⟨1⟩
    ∧ (reindex envOneDoc "2026-01-01 00:00:00" st1).2.rag_pipeline ≠ none := by
  refine ⟨rfl, rfl, ?_⟩
  have h1 : (reindex envOneDoc "2026-01-01 00:00:00" st1).2.rag_pipeline = some ⟨1⟩ := rfl
  rw [h1]
  simp

/-- C10 (confirmed). When the Index Builder reports failure, the
`/api/reindex` handler raises HTTP 500 and leaves all process state
unchanged: the RAGPipeline singleton is not replaced and the stats fields
keep their prior values. -/
theorem reindex_failure_preserves_state (ienv : IndexEnv) (now : String) (s : AppState)
    (h : (initialize_pinecone ienv).1 = false) :
    reindex ienv now s = (.error ⟨500, "Failed to rebuild Pinecone index"⟩, s)
    ∧ (reindex ienv now s).2.rag_pipeline = s.rag_pipeline
    ∧ (reindex ienv now s).2.index_status = s.index_status
    ∧ (reindex ienv now s).2.last_reindex_time = s.last_reindex_time := by
  have hre : reindex ienv now s = (.error ⟨500, "Failed to rebuild Pinecone index"⟩, s) := by
    simp [reindex, h]
  exact ⟨hre, by rw [hre], by rw [hre], by rw [hre]⟩

/-- Witness for C10 at the environment with no API key configured. -/
theorem reindex_failure_preserves_state_witness :
    (initialize_pinecone envMissingKey).1 = false
    ∧ reindex envMissingKey "t" st1 =
        (.error ⟨500, "Failed to rebuild Pinecone index"⟩, st1) := by
  exact ⟨rfl, (reindex_failure_preserves_state envMissingKey "t" st1 rfl).1⟩
